import Mathlib

/-!
Shallow embedding of the llmperf token benchmark
(`token_benchmark_ray.py` and `src/llmperf/models.py`).

Modelling conventions:
* Python floats are modelled as rationals (`ℚ`); the benchmark only adds,
  subtracts, multiplies and divides measured times, so `ℚ` is exact.
* Python exceptions (`KeyError`, `ZeroDivisionError`, `IndexError`,
  `TypeError`) are modelled with `Except PyErr`.
* A numpy true-division result (which silently yields `inf`/`nan` instead of
  raising) is modelled by the type `NpVal`.
* The external collaborators (HTTP clients, the Llama tokenizer, the prompt
  generator, `ray`, the wall clock) are inputs: the tokenizer is represented
  by the token count it would return for a generated text, the clock by a
  function from the index of a `time.monotonic()` reading to the elapsed
  time, and the request launcher by a function from the index of a
  `get_next_ready()` call to the list of results it returns.
-/

namespace LlmPerf

/-- A Python value appearing in one of the open `Dict[str, Any]` mappings
(sampling parameters, headers, metadata). Only integers and strings occur in
the benchmark's own dictionaries (`max_tokens` is an integer). -/
inductive PyVal where
  | int : ℤ → PyVal
  | str : String → PyVal
deriving DecidableEq

/-- The Python exceptions that the modelled code can raise. -/
inductive PyErr where
  | keyError
  | zeroDivisionError
  | indexError
  | typeError
deriving DecidableEq

/-- Result of a numpy true division: numpy does not raise on division by
zero; it returns `inf`, `-inf` or `nan` (with a runtime warning). -/
inductive NpVal where
  | val : ℚ → NpVal
  | inf
  | negInf
  | nan
deriving DecidableEq, Inhabited

/-- numpy true division `a / b`: finite quotient when `b ≠ 0`, otherwise a
signed infinity (or `nan` for `0 / 0`). -/
def npDiv (a b : ℚ) : NpVal :=
  if b ≠ 0 then NpVal.val (a / b)
  else if 0 < a then NpVal.inf
  else if a < 0 then NpVal.negInf
  else NpVal.nan

/-- Structure `RequestConfig` from `src/llmperf/models.py`: a pydantic `BaseModel`
whose fields mirror the Python class (same names, same defaults). The class
declares no `frozen`/`allow_mutation` configuration, so pydantic's default
behaviour applies: attribute assignment after construction is permitted. -/
structure RequestConfig where
  model : String
  prompt : String × ℕ
  sampling_params : Option (List (String × PyVal)) := none
  llm_api : Option String := none
  metadata : Option (List (String × PyVal)) := none
  header_params : Option (List (String × PyVal)) := none
  verify_ssl : Option Bool := some true
deriving DecidableEq

/-- Python attribute assignment `cfg.model = v` on a `RequestConfig`.
Because `RequestConfig` is a default (non-frozen) pydantic model, the
assignment succeeds and the instance's field observably changes; mutation is
rendered functionally, as the state of the instance after the statement. -/
def setModelAttr (cfg : RequestConfig) (v : String) : RequestConfig :=
  { cfg with model := v }

/-- A raw per-request metric record, as returned by a client worker through
`req_launcher.get_next_ready()` (the worker code is an external
collaborator; the field set follows the API boundary used by
`token_benchmark_ray.py`: `ttft`, the inter-token-latency accumulator, the
end-to-end latency, the input token count and the error fields). -/
structure RawMetrics where
  ttft : Option ℚ := none
  inter_token_lat : ℚ
  e2e_lat : ℚ
  num_input_tokens : ℕ
  error_code : Option String := none
  error_msg : Option String := none
deriving DecidableEq, Inhabited

/-- A normalized metric record, i.e. a raw record after the drain-time
fix-up in `get_token_throughput_latencies` filled in the derived fields. -/
structure Metrics where
  ttft : Option ℚ
  inter_token_lat : ℚ
  e2e_lat : ℚ
  num_input_tokens : ℕ
  num_output_tokens : ℕ
  num_total_tokens : ℕ
  req_output_throughput : Option ℚ
  error_code : Option String
  error_msg : Option String
deriving DecidableEq, Inhabited

/-- The in-loop drain normalization (`token_benchmark_ray.py` lines
132-147). `gen_tokens` is `get_token_length(gen_text)`, the tokenizer's
count for the generated text. Inter-token latency: divided by the output
token count when that count is non-zero, set to `0` otherwise. Per-request
throughput: set to `num_output_tokens / e2e_lat` only when the end-to-end
latency is truthy (non-zero); otherwise the key stays absent (`none`),
since a raw record carries no throughput key. -/
def normalize_record_loop (gen_tokens : ℕ) (r : RawMetrics) : Metrics :=
  { ttft := r.ttft
    inter_token_lat := if gen_tokens ≠ 0 then r.inter_token_lat / gen_tokens else 0
    e2e_lat := r.e2e_lat
    num_input_tokens := r.num_input_tokens
    num_output_tokens := gen_tokens
    num_total_tokens := r.num_input_tokens + gen_tokens
    req_output_throughput :=
      if r.e2e_lat ≠ 0 then some ((gen_tokens : ℚ) / r.e2e_lat) else none
    error_code := r.error_code
    error_msg := r.error_msg }

/-- The final drain normalization (`token_benchmark_ray.py` lines 160-175).
Identical to `normalize_record_loop` except that the per-request throughput
division `num_output_tokens / e2e_lat` is **not** guarded: when the
end-to-end latency is zero Python raises `ZeroDivisionError`, the record is
discarded and the whole function aborts. (In the source the exception fires
after the inter-token-latency and token-count keys were written in place;
since the crashed call returns nothing, only the error is observable.) -/
def normalize_record_final (gen_tokens : ℕ) (r : RawMetrics) : Except PyErr Metrics :=
  if r.e2e_lat = 0 then Except.error PyErr.zeroDivisionError
  else Except.ok
    { ttft := r.ttft
      inter_token_lat := if gen_tokens ≠ 0 then r.inter_token_lat / gen_tokens else 0
      e2e_lat := r.e2e_lat
      num_input_tokens := r.num_input_tokens
      num_output_tokens := gen_tokens
      num_total_tokens := r.num_input_tokens + gen_tokens
      req_output_throughput := some ((gen_tokens : ℚ) / r.e2e_lat)
      error_code := r.error_code
      error_msg := r.error_msg }

/-- The six per-request fields that `metrics_summary` tracks, in the order
of the `for key in [...]` loop (the string constants live in the external
`llmperf.common_metrics` module; an enum stands in for them). -/
inductive MetricKey where
  | inter_token_lat
  | ttft
  | e2e_lat
  | req_output_throughput
  | num_input_tokens
  | num_output_tokens
deriving DecidableEq, Inhabited

def trackedKeys : List MetricKey :=
  [MetricKey.inter_token_lat, MetricKey.ttft, MetricKey.e2e_lat,
   MetricKey.req_output_throughput, MetricKey.num_input_tokens,
   MetricKey.num_output_tokens]

/-- Embeds `pd.Series(list(flatten(df[key]))).dropna()`: the column of a tracked
field over a record list, with missing values dropped. All tracked fields
are scalar on a normalized record, so `flatten` is the identity here;
`dropna` removes the `none` entries of the optional fields. -/
def fieldSeries (ms : List Metrics) : MetricKey → List ℚ
  | MetricKey.inter_token_lat => ms.map (fun m => m.inter_token_lat)
  | MetricKey.ttft => ms.filterMap (fun m => m.ttft)
  | MetricKey.e2e_lat => ms.map (fun m => m.e2e_lat)
  | MetricKey.req_output_throughput => ms.filterMap (fun m => m.req_output_throughput)
  | MetricKey.num_input_tokens => ms.map (fun m => (m.num_input_tokens : ℚ))
  | MetricKey.num_output_tokens => ms.map (fun m => (m.num_output_tokens : ℚ))

/-- Embeds `series.quantile(q)` with pandas' default linear interpolation: on the
ascending sort of the samples, the value at fractional rank `q * (n - 1)`.
`none` models the `NaN` pandas returns for an empty series. -/
def linQuantile (xs : List ℚ) (q : ℚ) : Option ℚ :=
  match xs.insertionSort (fun a b => a ≤ b) with
  | [] => none
  | sorted =>
    let n := sorted.length
    let h := q * ((n : ℚ) - 1)
    let i := (⌊h⌋).toNat
    let lo := sorted.getD i 0
    let hi := sorted.getD (i + 1) lo
    some (lo + (h - (i : ℚ)) * (hi - lo))

/-- Embeds `series.mean()`: `NaN` (here `none`) on an empty series. -/
def seriesMean (xs : List ℚ) : Option ℚ :=
  if xs.length = 0 then none else some (xs.sum / (xs.length : ℚ))

def seriesMin (xs : List ℚ) : Option ℚ :=
  match xs with
  | [] => none
  | x :: rest => some (rest.foldl min x)

def seriesMax (xs : List ℚ) : Option ℚ :=
  match xs with
  | [] => none
  | x :: rest => some (rest.foldl max x)

/-- The square of `series.std()` (pandas sample standard deviation,
`N - 1` denominator; `NaN`, i.e. `none`, for fewer than two samples). The
standard deviation itself is an irrational square root in general; the
summary stores its square so the report stays inside `ℚ`. -/
def seriesStdSq (xs : List ℚ) : Option ℚ :=
  if xs.length < 2 then none
  else
    let m := xs.sum / (xs.length : ℚ)
    some ((xs.map (fun x => (x - m) ^ 2)).sum / ((xs.length : ℚ) - 1))

/-- The per-field block `ret[key]` built by the statistics loop of
`metrics_summary` (lines 233-259): the six quantiles plus mean, min, max
and (the square of) the sample standard deviation. -/
structure FieldStats where
  p25 : Option ℚ
  p50 : Option ℚ
  p75 : Option ℚ
  p90 : Option ℚ
  p95 : Option ℚ
  p99 : Option ℚ
  mean : Option ℚ
  min : Option ℚ
  max : Option ℚ
  std_sq : Option ℚ
deriving DecidableEq, Inhabited

def computeStats (xs : List ℚ) : FieldStats :=
  { p25 := linQuantile xs (25 / 100)
    p50 := linQuantile xs (50 / 100)
    p75 := linQuantile xs (75 / 100)
    p90 := linQuantile xs (90 / 100)
    p95 := linQuantile xs (95 / 100)
    p99 := linQuantile xs (99 / 100)
    mean := seriesMean xs
    min := seriesMin xs
    max := seriesMax xs
    std_sq := seriesStdSq xs }

/-- Embeds `dict(error_codes.value_counts())`: the frequency of each distinct
error code. (pandas orders the table by descending count; no claim depends
on the order, so first-appearance order is used here.) -/
def valueCounts (xs : List String) : List (String × ℕ) :=
  xs.dedup.map (fun c => (c, xs.count c))

/-- The summary dictionary `ret` built by `metrics_summary`. -/
structure Summary where
  stats : List (MetricKey × FieldStats)
  num_requests_started : ℕ
  error_rate : ℚ
  num_errors : ℕ
  error_code_frequency : List (String × ℕ)
  output_throughput : NpVal
  num_completed_requests : ℕ
  completed_requests_per_min : ℚ
deriving DecidableEq, Inhabited

/-- Embeds `metrics_summary(metrics, start_time, end_time)` from
`token_benchmark_ray.py` (lines 197-292).

* `pd.DataFrame([])` built from an empty record list has no columns at all,
  so the very first column access `df[common_metrics.ERROR_CODE]` raises
  `KeyError`; this is the `metrics.isEmpty` branch.
* `df_without_errored_req` keeps the records whose error code is missing
  (`isna`).
* The statistics loop, the request/error counters, the error-code frequency
  table and the overall throughput (a numpy division, which silently yields
  `inf` on a zero-length window) all compute without raising.
* `num_completed_requests / (end_time - start_time) * 60` is a plain Python
  division and raises `ZeroDivisionError` when `end_time = start_time`;
  there is no guard on the sign or size of the window. -/
def metrics_summary (metrics : List Metrics) (start_time end_time : ℚ) :
    Except PyErr Summary :=
  if metrics.isEmpty then Except.error PyErr.keyError
  else
    let df_without_errored := metrics.filter (fun m => m.error_code.isNone)
    let stats := trackedKeys.map
      (fun k => (k, computeStats (fieldSeries df_without_errored k)))
    let error_codes := metrics.filterMap (fun m => m.error_code)
    let num_errors := error_codes.length
    let error_rate : ℚ :=
      if metrics.length ≠ 0 then (num_errors : ℚ) / (metrics.length : ℚ) else 0
    let overall_output_throughput :=
      npDiv ((df_without_errored.map (fun m => (m.num_output_tokens : ℚ))).sum)
        (end_time - start_time)
    if end_time - start_time = 0 then Except.error PyErr.zeroDivisionError
    else Except.ok
      { stats := stats
        num_requests_started := metrics.length
        error_rate := error_rate
        num_errors := num_errors
        error_code_frequency := valueCounts error_codes
        output_throughput := overall_output_throughput
        num_completed_requests := df_without_errored.length
        completed_requests_per_min :=
          (df_without_errored.length : ℚ) / (end_time - start_time) * 60 }

/-- Python `list.pop()`: removes and returns the **last** element;
`none` models the `IndexError` raised on an empty list. -/
def pyPop {α : Type} (l : List α) : Option (α × List α) :=
  match l.reverse with
  | [] => none
  | a :: rest => some (a, rest.reverse)

/-- Python `base.update(upd)` on a dict, as an association list: keys of
`upd` override keys of `base`. -/
def dictUpdate (base upd : List (String × PyVal)) : List (String × PyVal) :=
  base.filter (fun kv => upd.all (fun kv2 => kv2.1 ≠ kv.1)) ++ upd

/-- The inputs of `get_token_throughput_latencies`, together with its
external collaborators rendered as functions:

* `sampleOut i` — the value of `sample_random_positive_int(mean, stddev)`
  on its `i`-th call (the seeded sampler is an external collaborator);
* `elapsed j` — `time.monotonic() - start_time` at the `j`-th evaluation of
  the `while` guard;
* `endElapsed` — `end_time - start_time`, the reading taken after the loop;
* `ready j` — the results returned by the `j`-th call to
  `req_launcher.get_next_ready()`; each result `(raw, gen_tokens)` is a raw
  record together with `get_token_length(gen_text)`, the tokenizer's count
  for its generated text. -/
structure LoopEnv where
  timeout : ℚ
  maxReq : ℕ
  nConc : ℕ
  modelName : String
  llm_api : String
  additional_sampling_params : List (String × PyVal)
  header_params : Option (List (String × PyVal))
  verify_ssl : Option Bool
  prompt_input : String × ℕ
  sampleOut : ℕ → ℕ
  elapsed : ℕ → ℚ
  endElapsed : ℚ
  ready : ℕ → List (RawMetrics × ℕ)

/-- Pool `num_output_tokens_list`: built before the loop by appending one
sampled value per index of `range(max_num_completed_requests)`. -/
def initTokensPool (env : LoopEnv) : List ℕ :=
  (List.range env.maxReq).map env.sampleOut

/-- Pool `prompts`: one copy of `prompt_input` per index of
`range(max_num_completed_requests)`. -/
def initPromptsPool (env : LoopEnv) : List (String × ℕ) :=
  List.replicate env.maxReq env.prompt_input

/-- Observable actions of the scheduler loop: a request launch, an in-loop
drain (`get_next_ready` at a multiple-of-concurrency iteration) and the one
final drain after the loop. Drain events record how many results the call
returned. -/
inductive Event where
  | launch : ℕ → RequestConfig → Event
  | drainLoop : ℕ → ℕ → Event
  | drainFinal : ℕ → Event
deriving DecidableEq

def Event.isFinal : Event → Bool
  | Event.drainFinal _ => true
  | _ => false

/-- The mutable state of the scheduler loop: the iteration counter, the two
pre-generated workload pools, the accumulated normalized records and the
number of `get_next_ready` calls made so far. -/
structure LoopState where
  iter : ℕ
  tokensPool : List ℕ
  promptsPool : List (String × ℕ)
  completed : List Metrics
  drains : ℕ

def initState (env : LoopEnv) : LoopState :=
  { iter := 0
    tokensPool := initTokensPool env
    promptsPool := initPromptsPool env
    completed := []
    drains := 0 }

/-- One iteration of the `while` body (lines 113-150), entered with the
guard already true. In source order: increment `iter`; `pop()` the output
token count (an empty pool raises `IndexError`); `pop()` the prompt; build
the sampling dict `{"max_tokens": n}` updated with the additional params;
build the `RequestConfig` and launch it; then, when
`iter % num_concurrent_requests == 0`, drain the ready results and extend
`completed_requests` with their in-loop normalizations.
(`iter % num_concurrent_requests` with a zero concurrency raises
`ZeroDivisionError` in Python, modelled by the explicit zero test.)
Returns the next state and the events of the iteration. -/
def loopIter (env : LoopEnv) (s : LoopState) : Except PyErr (LoopState × List Event) :=
  let iter := s.iter + 1
  match pyPop s.tokensPool with
  | none => Except.error PyErr.indexError
  | some (ntok, tokens') =>
    match pyPop s.promptsPool with
    | none => Except.error PyErr.indexError
    | some (pr, prompts') =>
      let sampling := dictUpdate [("max_tokens", PyVal.int (ntok : ℤ))]
        env.additional_sampling_params
      let cfg : RequestConfig :=
        { model := env.modelName
          prompt := pr
          sampling_params := some sampling
          llm_api := some env.llm_api
          metadata := none
          header_params := env.header_params
          verify_ssl := env.verify_ssl }
      if env.nConc = 0 then Except.error PyErr.zeroDivisionError
      else if iter % env.nConc = 0 then
        let outs := env.ready s.drains
        let recs := outs.map (fun o => normalize_record_loop o.2 o.1)
        Except.ok
          ({ iter := iter, tokensPool := tokens', promptsPool := prompts'
             completed := s.completed ++ recs, drains := s.drains + 1 },
           [Event.launch iter cfg, Event.drainLoop iter outs.length])
      else
        Except.ok
          ({ iter := iter, tokensPool := tokens', promptsPool := prompts'
             completed := s.completed, drains := s.drains },
           [Event.launch iter cfg])

/-- The `while` loop (lines 109-150), driven by explicit fuel. The guard
re-reads the clock (`elapsed` at the current guard index, which equals the
number of iterations performed) and the accumulated record count. Returns
`none` when the fuel runs out before the loop finishes, otherwise the
events of the remaining iterations together with either the state at
normal exit or the exception that aborted the loop. -/
def runLoop (env : LoopEnv) : ℕ → LoopState → Option (List Event × Except PyErr LoopState)
  | 0, _ => none
  | fuel + 1, s =>
    if env.elapsed s.iter < env.timeout ∧ s.completed.length < env.maxReq then
      match loopIter env s with
      | Except.error e => some ([], Except.error e)
      | Except.ok (s', evs) =>
        match runLoop env fuel s' with
        | none => none
        | some (log, res) => some (evs ++ log, res)
    else some ([], Except.ok s)

/-- Embeds `get_token_throughput_latencies` (lines 31-194), from the start of the
`while` loop: run the loop, then perform the single final
`get_next_ready()` drain, normalize its results with the (unguarded) final
normalization, extend `completed_requests`, and summarize. Returns the
event trace together with either the pair (accumulated records, summary) or
the first exception raised. (The surrounding metadata dictionary only
echoes the configuration and embeds the summary, and the tokenizer/client
construction before the loop is external; both are omitted.) -/
def get_token_throughput_latencies (env : LoopEnv) (fuel : ℕ) :
    Option (List Event × Except PyErr (List Metrics × Summary)) :=
  match runLoop env fuel (initState env) with
  | none => none
  | some (log, Except.error e) => some (log, Except.error e)
  | some (log, Except.ok s) =>
    let outs := env.ready s.drains
    let log' := log ++ [Event.drainFinal outs.length]
    match outs.mapM (fun o => normalize_record_final o.2 o.1) with
    | Except.error e => some (log', Except.error e)
    | Except.ok recs =>
      let completed := s.completed ++ recs
      match metrics_summary completed 0 env.endElapsed with
      | Except.error e => some (log', Except.error e)
      | Except.ok summ => some (log', Except.ok (completed, summ))

/-- The parameter names of `run_token_benchmark` (lines 295-309), in
declaration order. -/
def run_token_benchmark_params : List String :=
  ["llm_api", "model", "test_timeout_s", "max_num_completed_requests",
   "num_concurrent_requests", "mean_output_tokens", "stddev_output_tokens",
   "additional_sampling_params", "user_metadata", "custom_prompt",
   "model_url", "api_key", "header_params", "verify_ssl"]

/-- The keyword-argument names of the `run_token_benchmark(...)` call in the
`__main__` block (lines 474-487). -/
def main_call_kwargs : List String :=
  ["llm_api", "model", "test_timeout_s", "max_num_completed_requests",
   "mean_input_tokens", "stddev_input_tokens", "mean_output_tokens",
   "stddev_output_tokens", "num_concurrent_requests",
   "additional_sampling_params", "results_dir", "user_metadata"]

/-- CPython keyword binding for a call `f(**kwargs)` with no positional
arguments and no `**kwargs` catch-all in `f`'s signature: a keyword that
does not name a parameter raises `TypeError` before the function body runs.
(The `__main__` call supplies every required parameter, so the unexpected-
keyword check is the only one that can fire.) -/
def bindKwargs (params kwargs : List String) : Except PyErr Unit :=
  if kwargs.all (fun k => params.contains k) then Except.ok ()
  else Except.error PyErr.typeError

/-- Equality of `Except` values is decidable componentwise. -/
def exceptDecEq {ε α : Type} [DecidableEq ε] [DecidableEq α] :
    DecidableEq (Except ε α) := fun x y =>
  match x, y with
  | Except.error a, Except.error b =>
    decidable_of_iff (a = b) ⟨fun h => by rw [h], Except.error.inj⟩
  | Except.ok a, Except.ok b =>
    decidable_of_iff (a = b) ⟨fun h => by rw [h], Except.ok.inj⟩
  | Except.error _, Except.ok _ => isFalse Except.noConfusion
  | Except.ok _, Except.error _ => isFalse Except.noConfusion

instance {ε α : Type} [DecidableEq ε] [DecidableEq α] : DecidableEq (Except ε α) :=
  exceptDecEq

/-- Extract the success value of an `Except`, with a fallback. -/
def exceptOkOr {α : Type} (x : Except PyErr α) (fb : α) : α :=
  match x with
  | Except.ok a => a
  | Except.error _ => fb

/- Concrete fixtures used by witnesses and counterexamples. -/

/-- A raw record with end-to-end latency 1 (a well-behaved result). -/
def rawOne : RawMetrics :=
  { ttft := some 1, inter_token_lat := 2, e2e_lat := 1, num_input_tokens := 5 }

/-- A raw record whose end-to-end latency is zero. -/
def rawZeroLat : RawMetrics :=
  { ttft := some 1, inter_token_lat := 2, e2e_lat := 0, num_input_tokens := 5 }

/-- A normalized non-errored record with 10 output tokens. -/
def wRecOk : Metrics := normalize_record_loop 10 rawOne

/-- The final-drain normalization of `rawOne` with 4 output tokens. -/
def wRecFinal : Metrics := exceptOkOr (normalize_record_final 4 rawOne) default

/-- The summary produced for the single record `wRecOk` on the window
`[0, 2]`. -/
def wSummPos : Summary := exceptOkOr (metrics_summary [wRecOk] 0 2) default

/-- The summary produced for the single record `wRecOk` on the reversed
window `[0, -1]` (negative duration). -/
def wSummNeg : Summary := exceptOkOr (metrics_summary [wRecOk] 0 (-1)) default

/-- A scheduler environment that completes normally: concurrency 1, one
request, a drain that returns one well-behaved result, a generous clock. -/
def wEnvOk : LoopEnv :=
  { timeout := 10
    maxReq := 1
    nConc := 1
    modelName := "m"
    llm_api := "openai"
    additional_sampling_params := []
    header_params := none
    verify_ssl := some true
    prompt_input := ("p", 3)
    sampleOut := fun _ => 7
    elapsed := fun _ => 0
    endElapsed := 2
    ready := fun j => if j = 0 then [(rawOne, 4)] else [] }

def wRunLoopOk : Option (List Event × Except PyErr LoopState) :=
  runLoop wEnvOk 2 (initState wEnvOk)

/-- The event trace of the loop of `wEnvOk` up to its normal exit. -/
def wPreOk : List Event :=
  (wRunLoopOk.getD ([], Except.error PyErr.keyError)).1

/-- The loop state of `wEnvOk` at its normal exit. -/
def wSOk : LoopState :=
  exceptOkOr (wRunLoopOk.getD ([], Except.error PyErr.keyError)).2 (initState wEnvOk)

/-- A scheduler environment identical to `wEnvOk` except that the final
drain (the second `get_next_ready()` call) returns one result whose
end-to-end latency is zero: the loop still exits normally by reaching the
maximum completed-request count, but the final batch hits the unguarded
division. -/
def wEnvZero : LoopEnv :=
  { wEnvOk with ready := fun j => if j = 0 then [(rawOne, 4)] else [(rawZeroLat, 3)] }

def wRunLoopZero : Option (List Event × Except PyErr LoopState) :=
  runLoop wEnvZero 2 (initState wEnvZero)

/-- The event trace of the loop of `wEnvZero` up to its normal exit. -/
def wPreZero : List Event :=
  (wRunLoopZero.getD ([], Except.error PyErr.keyError)).1

/-- The loop state of `wEnvZero` at its normal exit. -/
def wSZero : LoopState :=
  exceptOkOr (wRunLoopZero.getD ([], Except.error PyErr.keyError)).2 (initState wEnvZero)

/-- A scheduler environment whose drains never return anything and whose
clock never reaches the timeout: the loop keeps iterating past the size of
the pre-generated pools. Concurrency 2, one pre-generated request. -/
def wEnvStarve : LoopEnv :=
  { timeout := 1
    maxReq := 1
    nConc := 2
    modelName := "m"
    llm_api := "openai"
    additional_sampling_params := []
    header_params := none
    verify_ssl := some true
    prompt_input := ("p", 3)
    sampleOut := fun _ => 7
    elapsed := fun _ => 0
    endElapsed := 1
    ready := fun _ => [] }

/-- A concrete `RequestConfig` as constructed by the benchmark. -/
def rcA : RequestConfig :=
  { model := "modelA", prompt := ("p", 1) }

/-- Claim C1, counterexample. The final drain does **not** apply the same
normalization as the in-loop drain: on a record whose end-to-end latency is
zero, the in-loop normalization leaves the per-request throughput unset,
while the final-drain normalization raises `ZeroDivisionError` instead of
producing that record. -/
theorem final_drain_guard_missing_cex :
    normalize_record_final 4 rawZeroLat ≠
      Except.ok (normalize_record_loop 4 rawZeroLat) ∧
    (normalize_record_loop 4 rawZeroLat).req_output_throughput = none ∧
    normalize_record_final 4 rawZeroLat = Except.error PyErr.zeroDivisionError := by
  refine ⟨?_, ?_, ?_⟩ <;> with_unfolding_all decide

/-- Claim C1, amended: for every drained result whose end-to-end latency is
non-zero, the final drain normalizes identically to the in-loop drain; the
two differ exactly on zero end-to-end latency, where the final drain's
unguarded division raises `ZeroDivisionError` rather than leaving the
throughput unset. -/
theorem final_drain_matches_loop_drain (g : ℕ) (r : RawMetrics)
    (h : r.e2e_lat ≠ 0) :
    normalize_record_final g r = Except.ok (normalize_record_loop g r) := by
  simp [normalize_record_final, normalize_record_loop, h]

/-- Witness for `final_drain_matches_loop_drain` at a concrete record. -/
theorem final_drain_matches_loop_drain_witness :
    normalize_record_final 4 rawOne = Except.ok (normalize_record_loop 4 rawOne) :=
  final_drain_matches_loop_drain 4 rawOne (by with_unfolding_all decide)

/-- Claim C4: in both drains, a record whose generated text tokenizes to
zero output tokens gets inter-token latency exactly `0`, and a record with
a positive output-token count gets the raw inter-token-latency accumulator
divided by that count (for the final drain, whenever it produces a record
at all). -/
theorem inter_token_latency_zero_guard (g : ℕ) (r : RawMetrics) :
    (normalize_record_loop g r).inter_token_lat =
      (if g = 0 then 0 else r.inter_token_lat / (g : ℚ)) ∧
    (∀ m, normalize_record_final g r = Except.ok m →
      m.inter_token_lat = (if g = 0 then 0 else r.inter_token_lat / (g : ℚ))) := by
  constructor
  · by_cases hg : g = 0 <;> simp [normalize_record_loop, hg]
  · intro m hm
    by_cases he : r.e2e_lat = 0
    · simp [normalize_record_final, he] at hm
    · simp only [normalize_record_final, if_neg he, Except.ok.injEq] at hm
      subst hm
      by_cases hg : g = 0 <;> simp [hg]

/-- Witness for `inter_token_latency_zero_guard`: the final-drain record
for `rawOne` with 4 output tokens divides the accumulator by 4. -/
theorem inter_token_latency_zero_guard_witness :
    wRecFinal.inter_token_lat =
      (if (4 : ℕ) = 0 then 0 else rawOne.inter_token_lat / ((4 : ℕ) : ℚ)) :=
  (inter_token_latency_zero_guard 4 rawOne).2 wRecFinal (by with_unfolding_all rfl)

/-- Claim C2 (code bug): `metrics_summary` does not validate the test
window. On a window of duration `-1` it returns a normal summary whose
aggregate throughput and completed-requests-per-minute are negative; on a
window of duration exactly `0` it raises `ZeroDivisionError` from the
unguarded completed-requests-per-minute division (the aggregate throughput
was already computed as numpy `inf` at that point), not an
input-validation error. -/
theorem summary_duration_unguarded :
    metrics_summary [wRecOk] 0 (-1) = Except.ok wSummNeg ∧
    wSummNeg.output_throughput = NpVal.val (-10) ∧
    wSummNeg.completed_requests_per_min = -60 ∧
    metrics_summary [wRecOk] 0 0 = Except.error PyErr.zeroDivisionError := by
  refine ⟨?_, ?_, ?_, ?_⟩ <;> with_unfolding_all decide

/-- Claim C3 (code bug): applied to an empty record list,
`metrics_summary` does not return a structurally valid report: the empty
DataFrame has no error-code column and the first column access raises
`KeyError`. -/
theorem summary_empty_crashes :
    metrics_summary [] 0 1 = Except.error PyErr.keyError := by
  with_unfolding_all rfl

/-- Claim C8, counterexample: a `RequestConfig` is not immutable. Attribute
assignment on a default (non-frozen) pydantic model succeeds: after
`cfg.model = "modelB"` the instance's `model` field has changed. -/
theorem request_config_mutable_cex :
    (setModelAttr rcA "modelB").model = "modelB" ∧
    rcA.model = "modelA" ∧
    setModelAttr rcA "modelB" ≠ rcA := by
  refine ⟨rfl, rfl, ?_⟩
  with_unfolding_all decide

/-- Claim C8, amended: the benchmark's `RequestConfig` class does not
enforce immutability — for every instance, assigning a field a value
different from the current one yields an observably changed instance. -/
theorem set_model_attr_changes_field (cfg : RequestConfig) (v : String)
    (h : v ≠ cfg.model) :
    (setModelAttr cfg v).model = v ∧ setModelAttr cfg v ≠ cfg := by
  refine ⟨rfl, ?_⟩
  intro hEq
  exact h (congrArg RequestConfig.model hEq)

/-- Witness for `set_model_attr_changes_field` at a concrete instance. -/
theorem set_model_attr_changes_field_witness :
    (setModelAttr rcA "modelB").model = "modelB" ∧ setModelAttr rcA "modelB" ≠ rcA :=
  set_model_attr_changes_field rcA "modelB" (by with_unfolding_all decide)

/-- Claim C9: the `__main__` block calls `run_token_benchmark` with the
keyword arguments `mean_input_tokens`, `stddev_input_tokens` and
`results_dir`, none of which is a parameter of `run_token_benchmark`;
CPython's keyword binding therefore raises `TypeError` before the function
body (and hence any benchmark work) begins. -/
theorem main_call_raises_type_error :
    bindKwargs run_token_benchmark_params main_call_kwargs =
      Except.error PyErr.typeError ∧
    "mean_input_tokens" ∈ main_call_kwargs ∧
    "mean_input_tokens" ∉ run_token_benchmark_params ∧
    "stddev_input_tokens" ∈ main_call_kwargs ∧
    "stddev_input_tokens" ∉ run_token_benchmark_params ∧
    "results_dir" ∈ main_call_kwargs ∧
    "results_dir" ∉ run_token_benchmark_params := by
  refine ⟨?_, ?_, ?_, ?_, ?_, ?_, ?_⟩ <;> decide

/-- Claim C5, counterexample: for the empty record list the aggregator
produces no report at all (it raises before the error-rate computation), so
no error rate of `0` is reported when the total count is `0`. -/
theorem error_rate_empty_cex : (metrics_summary [] 0 1).isOk = false := by
  with_unfolding_all rfl

/-- Claim C5, amended: whenever `metrics_summary` produces a report (which
it does exactly for nonempty record lists and non-degenerate windows), the
reported error rate equals the number of records carrying an error code
divided by the total number of records, lies in `[0, 1]`, and is `0` when
there are zero errors. (The zero-total case reports nothing: see
`error_rate_empty_cex`.) -/
theorem error_rate_of_report (ms : List Metrics) (s e : ℚ) (r : Summary)
    (h : metrics_summary ms s e = Except.ok r) :
    r.error_rate =
      ((ms.filterMap (fun m => m.error_code)).length : ℚ) / (ms.length : ℚ) ∧
    0 ≤ r.error_rate ∧ r.error_rate ≤ 1 ∧
    ((ms.filterMap (fun m => m.error_code)).length = 0 → r.error_rate = 0) := by
  have hne : ms ≠ [] := by
    intro hnil
    subst hnil
    simp [metrics_summary] at h
  have hlen : 0 < ms.length := List.length_pos.mpr hne
  have hlenQ : (0 : ℚ) < (ms.length : ℚ) := by exact_mod_cast hlen
  have hrate : r.error_rate =
      ((ms.filterMap (fun m => m.error_code)).length : ℚ) / (ms.length : ℚ) := by
    simp only [metrics_summary] at h
    rw [if_neg (by simp [hne])] at h
    split at h
    · exact Except.noConfusion h
    · injection h with h'
      rw [← h']
      dsimp only
      rw [if_pos (Nat.pos_iff_ne_zero.mp hlen)]
  refine ⟨hrate, ?_, ?_, ?_⟩
  · rw [hrate]; positivity
  · rw [hrate, div_le_one hlenQ]
    exact_mod_cast List.length_filterMap_le _ _
  · intro h0
    rw [hrate, h0]
    simp

/-- Witness for `error_rate_of_report` at a concrete report. -/
theorem error_rate_of_report_witness :
    wSummPos.error_rate =
      ((([wRecOk]).filterMap (fun m => m.error_code)).length : ℚ) /
        (([wRecOk] : List Metrics).length : ℚ) ∧
    0 ≤ wSummPos.error_rate ∧ wSummPos.error_rate ≤ 1 ∧
    ((([wRecOk]).filterMap (fun m => m.error_code)).length = 0 →
      wSummPos.error_rate = 0) :=
  error_rate_of_report [wRecOk] 0 2 wSummPos (by with_unfolding_all rfl)

/-- Claim C6: whenever `metrics_summary` produces a report for a window
with `start_time < end_time`, the aggregate output throughput equals the
sum of the output-token counts over non-errored records divided by the
window duration; it is a non-negative finite value, and it is `0` when all
requests errored. -/
theorem overall_throughput_of_report (ms : List Metrics) (s e : ℚ) (r : Summary)
    (hlt : s < e) (h : metrics_summary ms s e = Except.ok r) :
    r.output_throughput =
      NpVal.val (((ms.filter (fun m => m.error_code.isNone)).map
        (fun m => (m.num_output_tokens : ℚ))).sum / (e - s)) ∧
    (∃ q, r.output_throughput = NpVal.val q ∧ 0 ≤ q) ∧
    ((∀ m ∈ ms, m.error_code.isSome) → r.output_throughput = NpVal.val 0) := by
  have hd : e - s ≠ 0 := ne_of_gt (sub_pos.mpr hlt)
  have hval : r.output_throughput =
      NpVal.val (((ms.filter (fun m => m.error_code.isNone)).map
        (fun m => (m.num_output_tokens : ℚ))).sum / (e - s)) := by
    have hne : ms ≠ [] := by
      intro hnil
      subst hnil
      simp [metrics_summary] at h
    simp only [metrics_summary] at h
    rw [if_neg (by simp [hne])] at h
    rw [if_neg hd] at h
    injection h with h'
    rw [← h']
    dsimp only
    simp only [npDiv]
    rw [if_pos hd]
  refine ⟨hval, ⟨_, hval, ?_⟩, ?_⟩
  · apply div_nonneg
    · apply List.sum_nonneg
      intro x hx
      simp only [List.mem_map] at hx
      obtain ⟨m, _, rfl⟩ := hx
      positivity
    · exact le_of_lt (sub_pos.mpr hlt)
  · intro hall
    have hfil : ms.filter (fun m => m.error_code.isNone) = [] := by
      rw [List.filter_eq_nil_iff]
      intro a ha
      have hs := hall a ha
      cases hc : a.error_code with
      | none => rw [hc] at hs; simp at hs
      | some v => simp [hc]
    rw [hval, hfil]
    simp

/-- Witness for `overall_throughput_of_report` at a concrete report. -/
theorem overall_throughput_of_report_witness :
    wSummPos.output_throughput =
      NpVal.val (((([wRecOk]).filter (fun m => m.error_code.isNone)).map
        (fun m => (m.num_output_tokens : ℚ))).sum / (2 - 0)) ∧
    (∃ q, wSummPos.output_throughput = NpVal.val q ∧ 0 ≤ q) ∧
    ((∀ m ∈ [wRecOk], m.error_code.isSome) →
      wSummPos.output_throughput = NpVal.val 0) :=
  overall_throughput_of_report [wRecOk] 0 2 wSummPos (by norm_num)
    (by with_unfolding_all rfl)

/-- Popping a list of length `k + 1` succeeds and leaves `k` elements. -/
theorem pyPop_of_length_succ {α : Type} (l : List α) (k : ℕ)
    (h : l.length = k + 1) :
    ∃ a l', pyPop l = some (a, l') ∧ l'.length = k := by
  rcases hr : l.reverse with _ | ⟨a, rest⟩
  · rw [List.reverse_eq_nil_iff] at hr
    subst hr
    simp at h
  · refine ⟨a, rest.reverse, ?_, ?_⟩
    · simp [pyPop, hr]
    · have hlen : l.reverse.length = k + 1 := by simpa using h
      rw [hr] at hlen
      simp at hlen
      simpa using hlen

/-- Popping removes exactly one element. -/
theorem pyPop_length {α : Type} (l : List α) (a : α) (l' : List α)
    (h : pyPop l = some (a, l')) : l'.length + 1 = l.length := by
  simp only [pyPop] at h
  rcases hr : l.reverse with _ | ⟨b, rest⟩ <;> rw [hr] at h
  · exact Option.noConfusion h
  · simp only [Option.some.injEq, Prod.mk.injEq] at h
    obtain ⟨_, h2⟩ := h
    subst h2
    have : l.reverse.length = rest.length + 1 := by rw [hr]; simp
    simpa using this.symm

/-- A successful iteration of the loop body emits exactly one launch event,
followed by one in-loop drain event precisely when the new iteration index
is a multiple of the concurrency level. -/
theorem loopIter_ok_events (env : LoopEnv) (s s' : LoopState) (evs : List Event)
    (h : loopIter env s = Except.ok (s', evs)) :
    ∃ cfg,
      ((s.iter + 1) % env.nConc = 0 ∧
        evs = [Event.launch (s.iter + 1) cfg,
          Event.drainLoop (s.iter + 1) (env.ready s.drains).length]) ∨
      ((s.iter + 1) % env.nConc ≠ 0 ∧ evs = [Event.launch (s.iter + 1) cfg]) := by
  simp only [loopIter] at h
  split at h
  · exact Except.noConfusion h
  · split at h
    · exact Except.noConfusion h
    · split at h
      · exact Except.noConfusion h
      · split at h
        · rename_i hmod
          simp only [Except.ok.injEq, Prod.mk.injEq] at h
          exact ⟨_, Or.inl ⟨hmod, h.2.symm⟩⟩
        · rename_i hmod
          simp only [Except.ok.injEq, Prod.mk.injEq] at h
          exact ⟨_, Or.inr ⟨hmod, h.2.symm⟩⟩

/-- A successful iteration pops exactly one entry from each workload pool. -/
theorem loopIter_pops_one (env : LoopEnv) (s s' : LoopState) (evs : List Event)
    (h : loopIter env s = Except.ok (s', evs)) :
    s'.tokensPool.length + 1 = s.tokensPool.length ∧
    s'.promptsPool.length + 1 = s.promptsPool.length := by
  simp only [loopIter] at h
  split at h
  · exact Except.noConfusion h
  · rename_i ntok tokens' hp1
    split at h
    · exact Except.noConfusion h
    · rename_i pr prompts' hp2
      split at h
      · exact Except.noConfusion h
      · have h1 := pyPop_length s.tokensPool ntok tokens' hp1
        have h2 := pyPop_length s.promptsPool pr prompts' hp2
        split at h <;>
          (simp only [Except.ok.injEq, Prod.mk.injEq] at h
           obtain ⟨hs, _⟩ := h
           rw [← hs]
           exact ⟨h1, h2⟩)

/-- Within the loop itself, drain events happen exactly at the iterations
whose index is a multiple of the concurrency level, and no final-drain
event is ever emitted. -/
theorem runLoop_drain_events (env : LoopEnv) :
    ∀ (fuel : ℕ) (s : LoopState) (log : List Event) (res : Except PyErr LoopState),
      runLoop env fuel s = some (log, res) →
      (∀ i k, Event.drainLoop i k ∈ log → i % env.nConc = 0) ∧
      (∀ i cfg, Event.launch i cfg ∈ log → i % env.nConc = 0 →
        ∃ k, Event.drainLoop i k ∈ log) ∧
      (∀ k, Event.drainFinal k ∉ log) := by
  intro fuel
  induction fuel with
  | zero =>
    intro s log res h
    exact Option.noConfusion h
  | succ n ih =>
    intro s log res h
    simp only [runLoop] at h
    split at h
    · split at h
      · simp only [Option.some.injEq, Prod.mk.injEq] at h
        obtain ⟨h1, _⟩ := h
        subst h1
        exact ⟨by simp, by simp, by simp⟩
      · rename_i s' evs heq
        split at h
        · exact Option.noConfusion h
        · rename_i log' res' heq2
          simp only [Option.some.injEq, Prod.mk.injEq] at h
          obtain ⟨h1, _⟩ := h
          subst h1
          obtain ⟨hd, hl, hf⟩ := ih s' log' res' heq2
          obtain ⟨cfg0, hevs⟩ := loopIter_ok_events env s s' evs heq
          rcases hevs with ⟨hmod, hevs⟩ | ⟨hmod, hevs⟩ <;> subst hevs
          · refine ⟨?_, ?_, ?_⟩
            · intro i k hm
              rcases List.mem_append.mp hm with hm | hm
              · rcases List.mem_cons.mp hm with hm | hm
                · exact Event.noConfusion hm
                · rcases List.mem_singleton.mp hm with hm
                  injection hm with hi _
                  rw [hi]
                  exact hmod
              · exact hd i k hm
            · intro i cfg hm hi
              rcases List.mem_append.mp hm with hm | hm
              · rcases List.mem_cons.mp hm with hm | hm
                · injection hm with h2 _
                  refine ⟨(env.ready s.drains).length, ?_⟩
                  apply List.mem_append_left
                  rw [h2]
                  simp
                · rcases List.mem_singleton.mp hm with hm
                  exact Event.noConfusion hm
              · obtain ⟨k, hk⟩ := hl i cfg hm hi
                exact ⟨k, List.mem_append_right _ hk⟩
            · intro k hm
              rcases List.mem_append.mp hm with hm | hm
              · rcases List.mem_cons.mp hm with hm | hm
                · exact Event.noConfusion hm
                · rcases List.mem_singleton.mp hm with hm
                  exact Event.noConfusion hm
              · exact hf k hm
          · refine ⟨?_, ?_, ?_⟩
            · intro i k hm
              rcases List.mem_append.mp hm with hm | hm
              · rcases List.mem_singleton.mp hm with hm
                exact Event.noConfusion hm
              · exact hd i k hm
            · intro i cfg hm hi
              rcases List.mem_append.mp hm with hm | hm
              · rcases List.mem_singleton.mp hm with hm
                injection hm with h2 _
                rw [h2] at hi
                exact absurd hi hmod
              · obtain ⟨k, hk⟩ := hl i cfg hm hi
                exact ⟨k, List.mem_append_right _ hk⟩
            · intro k hm
              rcases List.mem_append.mp hm with hm | hm
              · rcases List.mem_singleton.mp hm with hm
                exact Event.noConfusion hm
              · exact hf k hm
    · simp only [Option.some.injEq, Prod.mk.injEq] at h
      obtain ⟨h1, _⟩ := h
      subst h1
      exact ⟨by simp, by simp, by simp⟩

/-- Claim C7, counterexample. A run in which the loop exits normally by
reaching the maximum completed-request count and the single final drain
returns one result — but that result's end-to-end latency is zero, so the
final batch is **not** normalized and appended: the unguarded division
raises `ZeroDivisionError` and the run aborts with no record list at all,
refuting the claim's "whose results are normalized and appended to the
accumulated record list". -/
theorem final_drain_discards_batch_cex :
    runLoop wEnvZero 2 (initState wEnvZero) = some (wPreZero, Except.ok wSZero) ∧
    (wEnvZero.ready wSZero.drains).length = 1 ∧
    get_token_throughput_latencies wEnvZero 2 =
      some (wPreZero ++ [Event.drainFinal 1], Except.error PyErr.zeroDivisionError) := by
  refine ⟨?_, ?_, ?_⟩ <;> with_unfolding_all rfl

/-- Claim C7, amended: on every run whose loop exits normally (by timeout
or by reaching the maximum completed-request count), ready results are
drained inside the loop exactly at the iterations whose index is a
multiple of `num_concurrent_requests` (never at any other iteration), and
exactly one final non-blocking drain follows the loop. The final drain's
results are normalized and appended to the accumulated record list only
when the final normalization succeeds (every result has non-zero
end-to-end latency; see `final_drain_discards_batch_cex` for the
discarding case). -/
theorem scheduler_drain_schedule (env : LoopEnv) (fuel : ℕ) (pre : List Event)
    (s : LoopState)
    (hrl : runLoop env fuel (initState env) = some (pre, Except.ok s)) :
    ∃ log res, get_token_throughput_latencies env fuel = some (log, res) ∧
      log = pre ++ [Event.drainFinal (env.ready s.drains).length] ∧
      (∀ i k, Event.drainLoop i k ∈ log → i % env.nConc = 0) ∧
      (∀ i cfg, Event.launch i cfg ∈ log → i % env.nConc = 0 →
        ∃ k, Event.drainLoop i k ∈ log) ∧
      log.countP Event.isFinal = 1 ∧
      (∀ recs,
        (env.ready s.drains).mapM (fun o => normalize_record_final o.2 o.1) =
          Except.ok recs →
        ∀ completed summ, res = Except.ok (completed, summ) →
          completed = s.completed ++ recs) := by
  obtain ⟨hd, hl, hf⟩ :=
    runLoop_drain_events env fuel (initState env) pre (Except.ok s) hrl
  have hcount0 : pre.countP Event.isFinal = 0 := by
    rw [List.countP_eq_zero]
    intro a ha
    cases a with
    | launch i cfg => simp [Event.isFinal]
    | drainLoop i k => simp [Event.isFinal]
    | drainFinal k => exact absurd ha (hf k)
  have hsched1 : ∀ i k,
      Event.drainLoop i k ∈ pre ++ [Event.drainFinal (env.ready s.drains).length] →
      i % env.nConc = 0 := by
    intro i k hm
    rcases List.mem_append.mp hm with hm | hm
    · exact hd i k hm
    · rcases List.mem_singleton.mp hm with hm
      exact Event.noConfusion hm
  have hsched2 : ∀ i cfg,
      Event.launch i cfg ∈ pre ++ [Event.drainFinal (env.ready s.drains).length] →
      i % env.nConc = 0 →
      ∃ k, Event.drainLoop i k ∈
        pre ++ [Event.drainFinal (env.ready s.drains).length] := by
    intro i cfg hm hi
    rcases List.mem_append.mp hm with hm | hm
    · obtain ⟨k, hk⟩ := hl i cfg hm hi
      exact ⟨k, List.mem_append_left _ hk⟩
    · rcases List.mem_singleton.mp hm with hm
      exact Event.noConfusion hm
  have hcount :
      (pre ++ [Event.drainFinal (env.ready s.drains).length]).countP
        Event.isFinal = 1 := by
    rw [List.countP_append, hcount0]
    simp [Event.isFinal]
  simp only [get_token_throughput_latencies, hrl]
  rcases hmapM : (env.ready s.drains).mapM (fun o => normalize_record_final o.2 o.1)
    with e | recs0
  · simp only [hmapM]
    refine ⟨_, _, rfl, rfl, hsched1, hsched2, hcount, ?_⟩
    intro recs hrecs completed summ hres
    exact absurd hres (by simp)
  · simp only [hmapM]
    rcases hms : metrics_summary (s.completed ++ recs0) 0 env.endElapsed
      with e | summ0
    · simp only [hms]
      refine ⟨_, _, rfl, rfl, hsched1, hsched2, hcount, ?_⟩
      intro recs hrecs completed summ hres
      exact absurd hres (by simp)
    · simp only [hms]
      refine ⟨_, _, rfl, rfl, hsched1, hsched2, hcount, ?_⟩
      intro recs hrecs completed summ hres
      injection hrecs with hrecs
      injection hres with hres
      injection hres with hres1 _
      rw [← hres1, hrecs]

/-- Witness for `scheduler_drain_schedule` on a concrete run whose loop
exits normally (concurrency 1, one request, one in-loop drain, an empty
final drain). -/
theorem scheduler_drain_schedule_witness :
    ∃ log res, get_token_throughput_latencies wEnvOk 2 = some (log, res) ∧
      log = wPreOk ++ [Event.drainFinal (wEnvOk.ready wSOk.drains).length] ∧
      (∀ i k, Event.drainLoop i k ∈ log → i % wEnvOk.nConc = 0) ∧
      (∀ i cfg, Event.launch i cfg ∈ log → i % wEnvOk.nConc = 0 →
        ∃ k, Event.drainLoop i k ∈ log) ∧
      log.countP Event.isFinal = 1 ∧
      (∀ recs,
        (wEnvOk.ready wSOk.drains).mapM (fun o => normalize_record_final o.2 o.1) =
          Except.ok recs →
        ∀ completed summ, res = Except.ok (completed, summ) →
          completed = wSOk.completed ++ recs) :=
  scheduler_drain_schedule wEnvOk 2 wPreOk wSOk (by with_unfolding_all rfl)

/-- If the clock never reaches the timeout and no drain ever returns a
result, the loop keeps iterating and, once the token pool is exhausted,
`pop()` raises `IndexError`. Stated for any state with an empty accumulated
record list and a token pool of `k` entries, with fuel for `k + 1`
iterations. -/
theorem runLoop_starved_exhausts (env : LoopEnv)
    (hn : 0 < env.nConc) (hmax : 0 < env.maxReq)
    (hclock : ∀ j, env.elapsed j < env.timeout)
    (hready : ∀ j, env.ready j = []) :
    ∀ (k fuel : ℕ) (s : LoopState), s.tokensPool.length = k →
      s.completed = [] → k < fuel →
      ∃ log, runLoop env fuel s = some (log, Except.error PyErr.indexError) := by
  have hnz : env.nConc ≠ 0 := Nat.pos_iff_ne_zero.mp hn
  intro k
  induction k with
  | zero =>
    intro fuel s hk hc hf
    cases fuel with
    | zero => exact absurd hf (by omega)
    | succ n =>
      have ht : s.tokensPool = [] := List.length_eq_zero.mp hk
      have hli : loopIter env s = Except.error PyErr.indexError := by
        simp only [loopIter, ht]
        rfl
      refine ⟨[], ?_⟩
      simp only [runLoop, hli]
      rw [if_pos ⟨hclock s.iter, by simpa [hc] using hmax⟩]
  | succ k ih =>
    intro fuel s hk hc hf
    cases fuel with
    | zero => exact absurd hf (by omega)
    | succ n =>
      obtain ⟨ntok, tokens', hp1, htk⟩ := pyPop_of_length_succ s.tokensPool k hk
      rcases hE : loopIter env s with e | p
      · have he : e = PyErr.indexError := by
          simp only [loopIter, hp1] at hE
          rcases hp2 : pyPop s.promptsPool with _ | ⟨pr, prompts'⟩ <;>
            rw [hp2] at hE
          · simp only [Except.error.injEq] at hE
            exact hE.symm
          · simp only [if_neg hnz] at hE
            split at hE <;> exact Except.noConfusion hE
        subst he
        refine ⟨[], ?_⟩
        simp only [runLoop, hE]
        rw [if_pos ⟨hclock s.iter, by simpa [hc] using hmax⟩]
      · obtain ⟨s', evs⟩ := p
        have hpools := loopIter_pops_one env s s' evs hE
        have htk' : s'.tokensPool.length = k := by omega
        have hcomp' : s'.completed = [] := by
          have hE2 := hE
          simp only [loopIter, hp1] at hE2
          rcases hp2 : pyPop s.promptsPool with _ | ⟨pr, prompts'⟩ <;>
            rw [hp2] at hE2
          · exact Except.noConfusion hE2
          · simp only [if_neg hnz] at hE2
            split at hE2 <;>
              (simp only [Except.ok.injEq, Prod.mk.injEq] at hE2
               obtain ⟨hs, _⟩ := hE2
               rw [← hs]
               simp [hready, hc])
        obtain ⟨log', hrun'⟩ := ih n s' htk' hcomp' (by omega)
        refine ⟨evs ++ log', ?_⟩
        simp only [runLoop, hE, hrun']
        rw [if_pos ⟨hclock s.iter, by simpa [hc] using hmax⟩]

/-- Claim C10: the two pre-generated workload pools each hold exactly
`max_num_completed_requests` entries and every successful loop iteration
pops one entry from each; when the clock stays below the timeout and no
submitted request is drained (possible with `num_concurrent_requests > 1`,
and here forced by drains that return nothing), the loop runs past the pool
size and the `pop()` on the exhausted list raises `IndexError` instead of
blocking or skipping submission. -/
theorem pool_exhaustion (env : LoopEnv) (fuel : ℕ)
    (hn : 0 < env.nConc) (hmax : 0 < env.maxReq)
    (hclock : ∀ j, env.elapsed j < env.timeout)
    (hready : ∀ j, env.ready j = [])
    (hfuel : env.maxReq < fuel) :
    (initTokensPool env).length = env.maxReq ∧
    (initPromptsPool env).length = env.maxReq ∧
    (∀ s s' evs, loopIter env s = Except.ok (s', evs) →
      s'.tokensPool.length + 1 = s.tokensPool.length ∧
      s'.promptsPool.length + 1 = s.promptsPool.length) ∧
    ∃ log, get_token_throughput_latencies env fuel =
      some (log, Except.error PyErr.indexError) := by
  refine ⟨by simp [initTokensPool], by simp [initPromptsPool],
    fun s s' evs h => loopIter_pops_one env s s' evs h, ?_⟩
  obtain ⟨log, hrun⟩ := runLoop_starved_exhausts env hn hmax hclock hready
    env.maxReq fuel (initState env) (by simp [initState, initTokensPool])
    rfl hfuel
  refine ⟨log, ?_⟩
  simp only [get_token_throughput_latencies, hrun]

/-- Witness for `pool_exhaustion`: concurrency 2, one pre-generated
request, a clock that never times out and drains that return nothing. -/
theorem pool_exhaustion_witness :
    (initTokensPool wEnvStarve).length = wEnvStarve.maxReq ∧
    (initPromptsPool wEnvStarve).length = wEnvStarve.maxReq ∧
    (∀ s s' evs, loopIter wEnvStarve s = Except.ok (s', evs) →
      s'.tokensPool.length + 1 = s.tokensPool.length ∧
      s'.promptsPool.length + 1 = s.promptsPool.length) ∧
    ∃ log, get_token_throughput_latencies wEnvStarve 2 =
      some (log, Except.error PyErr.indexError) :=
  pool_exhaustion wEnvStarve 2 (by with_unfolding_all decide)
    (by with_unfolding_all decide)
    (fun j => by simp only [wEnvStarve]; norm_num)
    (fun j => rfl) (by with_unfolding_all decide)

end LlmPerf
